import Mathlib

/-!
Verification development for the `healthcare_pipeline` DAG
(src/dags/healthcare.py): a shallow embedding of the record generators
(`fetch_patients`, `fetch_appointments`), the positional joiner
(`merge_csvs`), the schema-inferring loader (`load_csv_to_pg`) and the
cleanup task (`cleanup_folder`), together with theorems settling the
specification claims about them.

Modelling conventions:
- A row is an ordered association list from column name to text value,
  mirroring a Python `dict[str, str]` as produced by `csv.DictReader`
  (the data model of the spec says all values are text prior to load, so
  numeric fields such as `duration_minutes` appear in their serialized
  text form).
- Randomness from `Faker` is abstracted into an oracle supplying the
  free-text fields and, for each categorical field, an arbitrary natural
  number that `fake.random_element` turns into an index into the declared
  enumeration.
- File writes are modelled by a `FileState` value: opening a file with
  mode "w" truncates it, so a Python exception raised after `open` but
  before any write leaves an empty file on disk.
- Database effects are modelled by an explicit `PgState` (schemas and
  tables) with transactional semantics: SQL statements act on an
  in-transaction copy; only `commit` publishes it, and `rollback` (or an
  error before commit) leaves the visible state untouched.  Injected
  `psycopg2` errors are modelled by an optional fail-step counter.
-/

/-- A Python `dict[str, str]` row: ordered mapping, keys unique in practice. -/
abbrev Row := List (String × String)

/-- First-match lookup of a key in a row, mirroring Python dict access. -/
def lookupStr (k : String) : Row → Option String
  | [] => none
  | (k2, v) :: rest => if k2 = k then some v else lookupStr k rest

/-- Python exceptions that the pipeline code can actually raise. -/
inductive PyError
  | keyError
  | indexError
deriving DecidableEq, Repr

/-- State of an output file after a task ran: never opened, opened for
writing but nothing written (a truncated empty file left behind by an
exception), or a complete CSV with a header row and data rows. -/
inductive FileState
  | absent
  | emptyFile
  | csv (header : List String) (rows : List Row)
deriving DecidableEq, Repr

/-! ### Record generators (`fetch_patients`, `fetch_appointments`) -/

/-- Declared enumeration for `gender` in `fetch_patients`. -/
def gendersList : List String := ["Male", "Female", "Other"]

/-- Declared enumeration for `blood_type` in `fetch_patients`. -/
def bloodTypesList : List String := ["A+", "A-", "B+", "B-", "O+", "O-", "AB+", "AB-"]

/-- Declared enumeration for `department` in `fetch_appointments`. -/
def departmentsList : List String :=
  ["Cardiology", "Neurology", "Pediatrics", "Orthopedics", "Dermatology"]

/-- Declared enumeration for `status` in `fetch_appointments`. -/
def statusesList : List String := ["scheduled", "completed", "cancelled", "no-show"]

/-- Declared enumeration for `duration_minutes` (serialized text form). -/
def durationsList : List String := ["15", "30", "45", "60"]

/-- Model of `fake.random_element(choices)`: the oracle supplies an
arbitrary natural number, turned into a valid index into the list. -/
def random_element (choices : List String) (seed : Nat) : String :=
  choices.getD (seed % choices.length) ""

/-- Abstraction of the `Faker` pseudo-random source: per row index it
supplies the free-text fields directly and a seed for each call to
`random_element` on a declared enumeration. -/
structure FakerOracle where
  uuid : Nat → String
  firstName : Nat → String
  lastName : Nat → String
  dob : Nat → String
  genderSeed : Nat → Nat
  bloodSeed : Nat → Nat
  email : Nat → String
  phone : Nat → String
  address : Nat → String
  fullName : Nat → String
  departmentSeed : Nat → Nat
  dateBetween : Nat → String
  timeOfDay : Nat → String
  durationSeed : Nat → Nat
  statusSeed : Nat → Nat
  fee : Nat → String

/-- One patient record, mirroring the dict literal in `fetch_patients`. -/
def patientRow (o : FakerOracle) (i : Nat) : Row :=
  [("patient_id", o.uuid i),
   ("first_name", o.firstName i),
   ("last_name", o.lastName i),
   ("date_of_birth", o.dob i),
   ("gender", random_element gendersList (o.genderSeed i)),
   ("blood_type", random_element bloodTypesList (o.bloodSeed i)),
   ("email", o.email i),
   ("phone", o.phone i),
   ("address", o.address i)]

/-- One appointment record, mirroring the dict literal in `fetch_appointments`. -/
def appointmentRow (o : FakerOracle) (i : Nat) : Row :=
  [("appointment_id", o.uuid i),
   ("doctor_name", "Dr. " ++ o.fullName i),
   ("department", random_element departmentsList (o.departmentSeed i)),
   ("appointment_date", o.dateBetween i),
   ("appointment_time", o.timeOfDay i),
   ("duration_minutes", random_element durationsList (o.durationSeed i)),
   ("status", random_element statusesList (o.statusSeed i)),
   ("consultation_fee", o.fee i)]

/-- Column list of a patient record, in declaration order. -/
def patientCols : List String :=
  ["patient_id", "first_name", "last_name", "date_of_birth", "gender",
   "blood_type", "email", "phone", "address"]

/-- Column list of an appointment record, in declaration order. -/
def appointmentCols : List String :=
  ["appointment_id", "doctor_name", "department", "appointment_date",
   "appointment_time", "duration_minutes", "status", "consultation_fee"]

/-- Model of `fetch_patients`: builds `quantity` rows, then writes them to
CSV with `fieldnames=data[0].keys()`.  When `data` is empty, `open` has
already truncated the file and `data[0]` raises `IndexError`, so the task
fails leaving an empty file. -/
def fetch_patients (o : FakerOracle) (quantity : Nat) :
    Except PyError (List Row) × FileState :=
  let data := (List.range quantity).map (patientRow o)
  match data with
  | [] => (.error .indexError, .emptyFile)
  | r :: _ => (.ok data, .csv (r.map Prod.fst) data)

/-- Model of `fetch_appointments`; same write-out shape as `fetch_patients`. -/
def fetch_appointments (o : FakerOracle) (quantity : Nat) :
    Except PyError (List Row) × FileState :=
  let data := (List.range quantity).map (appointmentRow o)
  match data with
  | [] => (.error .indexError, .emptyFile)
  | r :: _ => (.ok data, .csv (r.map Prod.fst) data)

/-! ### Joiner (`merge_csvs`) -/

/-- One merged record: the dict literal built in the loop of `merge_csvs`.
Python raises `KeyError` on a missing key; the match evaluates the same
nine lookups. -/
def mergeRow (p a : Row) : Except PyError Row :=
  match lookupStr "first_name" p, lookupStr "last_name" p,
        lookupStr "email" p, lookupStr "blood_type" p,
        lookupStr "doctor_name" a, lookupStr "department" a,
        lookupStr "appointment_date" a, lookupStr "status" a,
        lookupStr "consultation_fee" a with
  | some fn, some ln, some em, some bt, some dn, some dep, some ad, some st, some cf =>
      .ok [("patient_name", fn ++ " " ++ ln),
           ("patient_email", em),
           ("blood_type", bt),
           ("doctor_name", dn),
           ("department", dep),
           ("appointment_date", ad),
           ("status", st),
           ("consultation_fee", cf)]
  | _, _, _, _, _, _, _, _, _ => .error .keyError

/-- The merge loop `for i in range(min(len(patients), len(appointments)))`:
pairs rows positionally, stopping at the shorter list, propagating the
first `KeyError`. -/
def mergeRows : List Row → List Row → Except PyError (List Row)
  | p :: ps, a :: as =>
    match mergeRow p a with
    | .ok r =>
      match mergeRows ps as with
      | .ok rest => .ok (r :: rest)
      | .error e => .error e
    | .error e => .error e
  | _, _ => .ok []

/-- Model of `merge_csvs` on the two parsed row lists.  After the loop the
code opens the output file (truncating it) and builds a `DictWriter` with
`fieldnames=merged[0].keys()`: when `merged` is empty that raises
`IndexError`, leaving an empty headerless file behind. -/
def merge_csvs (patients appointments : List Row) :
    Except PyError (List Row) × FileState :=
  match mergeRows patients appointments with
  | .error e => (.error e, .absent)
  | .ok merged =>
    match merged with
    | [] => (.error .indexError, .emptyFile)
    | r :: _ => (.ok merged, .csv (r.map Prod.fst) merged)

/-- Column list of a merged record, in declaration order. -/
def mergedCols : List String :=
  ["patient_name", "patient_email", "blood_type", "doctor_name",
   "department", "appointment_date", "status", "consultation_fee"]

/-- A row carries the four patient fields the merge projects. -/
def patientKeysOk (r : Row) : Prop :=
  (lookupStr "first_name" r).isSome = true ∧ (lookupStr "last_name" r).isSome = true ∧
  (lookupStr "email" r).isSome = true ∧ (lookupStr "blood_type" r).isSome = true

/-- A row carries the five appointment fields the merge projects. -/
def appointmentKeysOk (r : Row) : Prop :=
  (lookupStr "doctor_name" r).isSome = true ∧ (lookupStr "department" r).isSome = true ∧
  (lookupStr "appointment_date" r).isSome = true ∧ (lookupStr "status" r).isSome = true ∧
  (lookupStr "consultation_fee" r).isSome = true

instance (r : Row) : Decidable (patientKeysOk r) := by
  unfold patientKeysOk; infer_instance

instance (r : Row) : Decidable (appointmentKeysOk r) := by
  unfold appointmentKeysOk; infer_instance

/-! ### Schema-inferring loader (`load_csv_to_pg`) -/

/-- One destination table: column list (all TEXT) and committed rows. -/
structure PgTable where
  cols : List String
  rows : List (List (Option String))
deriving DecidableEq, Repr

/-- Visible database state: existing schemas and tables keyed by
(schema name, table name). -/
structure PgState where
  schemas : List String
  tables : List ((String × String) × PgTable)
deriving DecidableEq, Repr

/-- Namespace hard-coded in `load_csv_to_pg` (`schema = "week8_demo"`). -/
def schemaName : String := "week8_demo"

/-- First-match lookup of a table by (schema, table) key. -/
def lookupTable (k : String × String) :
    List ((String × String) × PgTable) → Option PgTable
  | [] => none
  | (k2, t) :: rest => if k2 = k then some t else lookupTable k rest

/-- Replace the binding for key `k` (or append it if absent). -/
def setTable (k : String × String) (t : PgTable) :
    List ((String × String) × PgTable) → List ((String × String) × PgTable)
  | [] => [(k, t)]
  | (k2, t2) :: rest =>
    if k2 = k then (k, t) :: rest else (k2, t2) :: setTable k t rest

/-- Model of `r.get(col, "") or None`: a missing column or an empty string
both become SQL NULL. -/
def cellValue (r : Row) (col : String) : Option String :=
  match lookupStr col r with
  | some v => if v = "" then none else some v
  | none => none

/-- The parameter tuples built from the CSV rows, one per input row. -/
def pgRowsOf (fieldnames : List String) (rawRows : List Row) :
    List (List (Option String)) :=
  rawRows.map (fun r => fieldnames.map (cellValue r))

/-- The SQL statements `load_csv_to_pg` executes inside its transaction,
in order: CREATE SCHEMA IF NOT EXISTS, CREATE TABLE IF NOT EXISTS, the
Replace-mode DELETE, then one parameterized INSERT per row
(`executemany`). -/
inductive SqlOp
  | createSchema
  | createTable
  | deleteRows
  | insertRow (vals : List (Option String))
deriving DecidableEq, Repr

/-- Statement sequence for one `load_csv_to_pg` call (`append = true`
skips the DELETE). -/
def sqlOps (rows : List (List (Option String))) (append : Bool) : List SqlOp :=
  [SqlOp.createSchema, SqlOp.createTable]
    ++ (if append then [] else [SqlOp.deleteRows])
    ++ rows.map SqlOp.insertRow

/-- Effect of one SQL statement on the in-transaction state.  The DELETE
and INSERT branches for a missing table are unreachable in `load_csv_to_pg`
because CREATE TABLE IF NOT EXISTS always runs first in the same
transaction; they are modelled as no-ops. -/
def applyOp (tbl : String) (fieldnames : List String) :
    SqlOp → PgState → PgState
  | .createSchema, s =>
    if schemaName ∈ s.schemas then s else { s with schemas := s.schemas ++ [schemaName] }
  | .createTable, s =>
    match lookupTable (schemaName, tbl) s.tables with
    | some _ => s
    | none => { s with tables := setTable (schemaName, tbl) ⟨fieldnames, []⟩ s.tables }
  | .deleteRows, s =>
    match lookupTable (schemaName, tbl) s.tables with
    | some t => { s with tables := setTable (schemaName, tbl) ⟨t.cols, []⟩ s.tables }
    | none => s
  | .insertRow vals, s =>
    match lookupTable (schemaName, tbl) s.tables with
    | some t =>
      { s with tables := setTable (schemaName, tbl) ⟨t.cols, t.rows ++ [vals]⟩ s.tables }
    | none => s

/-- Run a statement list left to right on the in-transaction state. -/
def applyOps (tbl : String) (fieldnames : List String)
    (ops : List SqlOp) (s : PgState) : PgState :=
  ops.foldl (fun s op => applyOp tbl fieldnames op s) s

/-- Execute statements with an injected `psycopg2.Error`: `some j` makes
the (j+1)-th remaining statement raise (returning `none`, which the
caller turns into rollback); `none` injects no failure. -/
def runOps (tbl : String) (fieldnames : List String) :
    Option Nat → List SqlOp → PgState → Option PgState
  | _, [], s => some s
  | some 0, _ :: _, _ => none
  | some (j + 1), op :: ops, s =>
    runOps tbl fieldnames (some j) ops (applyOp tbl fieldnames op s)
  | none, op :: ops, s =>
    runOps tbl fieldnames none ops (applyOp tbl fieldnames op s)

/-- Exceptions that escape `load_csv_to_pg` uncaught.  `hook.get_conn()`
sits before the `try` block, so a connection-acquisition failure is not
converted to a zero row count. -/
inductive LoadException
  | connError
deriving DecidableEq, Repr

/-- Model of `load_csv_to_pg`.  Arguments mirror the task plus the two
fault-injection knobs (`connFails` for `hook.get_conn()`, `failAt` for a
`psycopg2.Error` raised by the (failAt+1)-th SQL statement, with
`failAt = number of statements` meaning `conn.commit()` itself fails).
Returns the escaped exception, or the committed row count together with
the visible database state after the call. -/
def load_csv_to_pg (fieldnames : List String) (rawRows : List Row)
    (tbl : String) (append : Bool) (connFails : Bool) (failAt : Option Nat)
    (db : PgState) : Except LoadException (Nat × PgState) :=
  let rows := pgRowsOf fieldnames rawRows
  if rows.isEmpty then .ok (0, db)
  else if connFails then .error .connError
  else
    let ops := sqlOps rows append
    match runOps tbl fieldnames failAt ops db with
    | none => .ok (0, db)
    | some txn =>
      if failAt = some ops.length then .ok (0, db)
      else .ok (rows.length, txn)

/-! ### Cleanup (`cleanup_folder`) -/

/-- One entry of `os.listdir`: its name and whether `os.path.isfile`
holds for it (directories and other non-files are false). -/
structure DirEntry where
  name : String
  isFile : Bool
deriving DecidableEq, Repr

/-- Model of `cleanup_folder`: remove every plain file whose name ends in
".csv"; the surviving directory entries keep their order. -/
def cleanup_folder (entries : List DirEntry) : List DirEntry :=
  entries.filter (fun e => !(e.isFile && e.name.endsWith ".csv"))

/-! ### Helper lemmas about the loader model -/

theorem applyOps_nil (tbl : String) (fn : List String) (s : PgState) :
    applyOps tbl fn [] s = s := rfl

theorem applyOps_cons (tbl : String) (fn : List String) (op : SqlOp)
    (ops : List SqlOp) (s : PgState) :
    applyOps tbl fn (op :: ops) s = applyOps tbl fn ops (applyOp tbl fn op s) := rfl

theorem applyOps_append (tbl : String) (fn : List String) (l1 l2 : List SqlOp)
    (s : PgState) :
    applyOps tbl fn (l1 ++ l2) s = applyOps tbl fn l2 (applyOps tbl fn l1 s) := by
  unfold applyOps
  exact List.foldl_append _ _ l1 l2

theorem runOps_none_eq (tbl : String) (fn : List String) :
    ∀ (ops : List SqlOp) (s : PgState),
      runOps tbl fn none ops s = some (applyOps tbl fn ops s) := by
  intro ops
  induction ops with
  | nil => intro s; rfl
  | cons op ops ih =>
    intro s
    rw [runOps, ih, applyOps_cons]

theorem runOps_some_lt (tbl : String) (fn : List String) :
    ∀ (ops : List SqlOp) (j : Nat) (s : PgState), j < ops.length →
      runOps tbl fn (some j) ops s = none := by
  intro ops
  induction ops with
  | nil => intro j s h; simp at h
  | cons op ops ih =>
    intro j s h
    cases j with
    | zero => rfl
    | succ j =>
      rw [runOps]
      exact ih j _ (Nat.lt_of_succ_lt_succ h)

theorem runOps_some_ge (tbl : String) (fn : List String) :
    ∀ (ops : List SqlOp) (j : Nat) (s : PgState), ops.length ≤ j →
      runOps tbl fn (some j) ops s = some (applyOps tbl fn ops s) := by
  intro ops
  induction ops with
  | nil => intro j s h; cases j <;> rfl
  | cons op ops ih =>
    intro j s h
    cases j with
    | zero => simp at h
    | succ j =>
      rw [runOps, applyOps_cons]
      exact ih j _ (Nat.le_of_succ_le_succ h)

theorem pgRowsOf_isEmpty (fn : List String) (rr : List Row) :
    (pgRowsOf fn rr).isEmpty = rr.isEmpty := by
  cases rr <;> rfl

theorem pgRowsOf_length (fn : List String) (rr : List Row) :
    (pgRowsOf fn rr).length = rr.length := by
  unfold pgRowsOf
  exact List.length_map _ _

/-! ### C1: any failure inside the transaction rolls back fully -/

/-- C1: for every dataset, table, mode and starting database, a
`psycopg2` error raised by any of the SQL statements of `load_csv_to_pg`
(schema creation, table creation, Replace-mode clearing, or any single
row insert) makes the call return 0 committed rows with the visible
database state exactly as it was before the call — a failure mid-insert
never leaves a strict subset of the new rows visible. -/
theorem load_failure_rolls_back (fieldnames : List String) (rawRows : List Row)
    (tbl : String) (append : Bool) (db : PgState) (k : Nat)
    (hk : k < (sqlOps (pgRowsOf fieldnames rawRows) append).length) :
    load_csv_to_pg fieldnames rawRows tbl append false (some k) db = .ok (0, db) := by
  unfold load_csv_to_pg
  by_cases h : (pgRowsOf fieldnames rawRows).isEmpty
  · simp [h]
  · simp only [h, Bool.false_eq_true, if_false, if_true]
    rw [runOps_some_lt _ _ _ _ _ hk]

/-- Witness for C1: a two-row Append load into a database already holding
one committed row, with the error injected on the second INSERT (the
fourth statement), leaves that database unchanged and reports 0 rows. -/
theorem load_failure_rolls_back_witness :
    load_csv_to_pg ["a"] [[("a", "x")], [("a", "y")]] "healthcare_records" true
      false (some 3)
      ⟨["week8_demo"], [(("week8_demo", "healthcare_records"), ⟨["a"], [[some "old"]]⟩)]⟩
    = .ok (0, ⟨["week8_demo"],
        [(("week8_demo", "healthcare_records"), ⟨["a"], [[some "old"]]⟩)]⟩) :=
  load_failure_rolls_back ["a"] [[("a", "x")], [("a", "y")]] "healthcare_records"
    true _ 3 (by decide)

/-! ### C4: zero-row datasets never touch the database -/

/-- Counterexample for C4: a dataset with the non-empty column list
`["a"]` and zero rows.  The claim says the loader still provisions the
namespace and table in this case; the code returns 0 before any database
work, so the resulting visible state still has no schema and no table. -/
theorem load_zero_rows_no_provisioning_cex :
    load_csv_to_pg ["a"] [] "healthcare_records" true false none ⟨[], []⟩
        = .ok (0, ⟨[], []⟩) ∧
      (PgState.mk [] []).schemas = [] ∧
      lookupTable ("week8_demo", "healthcare_records") (PgState.mk [] []).tables = none :=
  ⟨rfl, rfl, rfl⟩

/-- C4 as amended: for every zero-row dataset, `load_csv_to_pg` returns 0
and performs no schema or table operation at all — regardless of whether
the column list is empty or not, and regardless of mode, connection
failures or injected errors (the early return happens before the
connection is even acquired). -/
theorem load_zero_rows_returns_zero (fieldnames : List String) (tbl : String)
    (append connFails : Bool) (failAt : Option Nat) (db : PgState) :
    load_csv_to_pg fieldnames [] tbl append connFails failAt db = .ok (0, db) := rfl

/-! ### C8: connection-acquisition failures escape uncaught -/

/-- Counterexample for C8: with a non-empty dataset and a failing
`hook.get_conn()`, `load_csv_to_pg` raises the connection error to the
caller instead of catching it and returning 0 — `get_conn` sits before
the `try` block. -/
theorem load_conn_failure_propagates_cex :
    load_csv_to_pg ["a"] [[("a", "x")]] "healthcare_records" true true none ⟨[], []⟩
      = .error .connError := rfl

/-- C8 as amended: with the connection acquired, no exception ever
escapes `load_csv_to_pg`, and every `psycopg2` error raised by a SQL
statement or by `conn.commit()` inside the `try` block (the fail indices
`k ≤ number of statements`, the last one being the commit) is caught and
converted into a committed-count of zero with the visible database state
untouched; but a failure acquiring the connection propagates uncaught
whenever there is at least one row to load, because `hook.get_conn()`
runs before the `try` block. -/
theorem load_error_handling_scope (fieldnames : List String) (rawRows : List Row)
    (tbl : String) (append : Bool) (failAt : Option Nat) (db : PgState) :
    (∃ n s, load_csv_to_pg fieldnames rawRows tbl append false failAt db = .ok (n, s)) ∧
    (∀ k, k ≤ (sqlOps (pgRowsOf fieldnames rawRows) append).length →
      load_csv_to_pg fieldnames rawRows tbl append false (some k) db = .ok (0, db)) ∧
    (rawRows ≠ [] →
      load_csv_to_pg fieldnames rawRows tbl append true failAt db = .error .connError) := by
  refine ⟨?_, ?_, ?_⟩
  · unfold load_csv_to_pg
    by_cases h : (pgRowsOf fieldnames rawRows).isEmpty
    · exact ⟨0, db, by simp [h]⟩
    · simp only [h, Bool.false_eq_true, if_false, if_true]
      cases hr : runOps tbl fieldnames failAt (sqlOps (pgRowsOf fieldnames rawRows) append) db with
      | none => exact ⟨0, db, rfl⟩
      | some txn =>
        by_cases hf : failAt = some (sqlOps (pgRowsOf fieldnames rawRows) append).length
        · exact ⟨0, db, by simp [hf]⟩
        · exact ⟨(pgRowsOf fieldnames rawRows).length, txn, by simp [hf]⟩
  · intro k hk
    unfold load_csv_to_pg
    by_cases h : (pgRowsOf fieldnames rawRows).isEmpty
    · simp [h]
    · simp only [h, Bool.false_eq_true, if_false, if_true]
      by_cases hlt : k < (sqlOps (pgRowsOf fieldnames rawRows) append).length
      · rw [runOps_some_lt _ _ _ _ _ hlt]
      · have heq : k = (sqlOps (pgRowsOf fieldnames rawRows) append).length :=
          Nat.le_antisymm hk (Nat.not_lt.mp hlt)
        rw [runOps_some_ge _ _ _ _ _ (le_of_eq heq.symm)]
        simp [heq]
  · intro hne
    unfold load_csv_to_pg
    have h : (pgRowsOf fieldnames rawRows).isEmpty = false := by
      rw [pgRowsOf_isEmpty]
      cases rawRows with
      | nil => exact absurd rfl hne
      | cons r rest => rfl
    simp [h]

/-- Witness for C8 as amended, at a one-row Append dataset whose
statement list has three entries: the error is injected once on the
first SQL statement and once on the commit (fail index 3), and the
connection-acquisition failure is exercised as well. -/
theorem load_error_handling_scope_witness :
    (∃ n s, load_csv_to_pg ["a"] [[("a", "x")]] "healthcare_records" true false
        (some 0) ⟨[], []⟩ = .ok (n, s)) ∧
    load_csv_to_pg ["a"] [[("a", "x")]] "healthcare_records" true false
        (some 3) ⟨[], []⟩ = .ok (0, ⟨[], []⟩) ∧
    load_csv_to_pg ["a"] [[("a", "x")]] "healthcare_records" true true
        (some 0) ⟨[], []⟩ = .error .connError :=
  ⟨(load_error_handling_scope ["a"] [[("a", "x")]] "healthcare_records" true
      (some 0) ⟨[], []⟩).1,
   (load_error_handling_scope ["a"] [[("a", "x")]] "healthcare_records" true
      (some 3) ⟨[], []⟩).2.1 3 (by decide),
   (load_error_handling_scope ["a"] [[("a", "x")]] "healthcare_records" true
      (some 0) ⟨[], []⟩).2.2 (by decide)⟩

/-! ### C5: Replace-mode idempotence -/

theorem lookupTable_setTable_self (k : String × String) (t : PgTable) :
    ∀ l : List ((String × String) × PgTable),
      lookupTable k (setTable k t l) = some t := by
  intro l
  induction l with
  | nil => simp [setTable, lookupTable]
  | cons p rest ih =>
    obtain ⟨k2, t2⟩ := p
    by_cases h : k2 = k
    · simp [setTable, h, lookupTable]
    · simp [setTable, h, lookupTable, ih]

theorem applyOp_createSchema_tables (tbl : String) (fn : List String) (s : PgState) :
    (applyOp tbl fn .createSchema s).tables = s.tables := by
  simp only [applyOp]
  split <;> rfl

theorem applyOp_createTable_lookup (tbl : String) (fn : List String) (s : PgState) :
    ∃ t, lookupTable (schemaName, tbl) (applyOp tbl fn .createTable s).tables = some t := by
  simp only [applyOp]
  cases h : lookupTable (schemaName, tbl) s.tables with
  | none => exact ⟨⟨fn, []⟩, by simp [h, lookupTable_setTable_self]⟩
  | some t => exact ⟨t, by simp [h]⟩

theorem applyOp_deleteRows_lookup (tbl : String) (fn : List String) (s : PgState)
    (t : PgTable) (h : lookupTable (schemaName, tbl) s.tables = some t) :
    lookupTable (schemaName, tbl) (applyOp tbl fn .deleteRows s).tables
      = some ⟨t.cols, []⟩ := by
  simp only [applyOp]
  simp [h, lookupTable_setTable_self]

theorem applyOp_insertRow_lookup (tbl : String) (fn : List String) (s : PgState)
    (t : PgTable) (v : List (Option String))
    (h : lookupTable (schemaName, tbl) s.tables = some t) :
    lookupTable (schemaName, tbl) (applyOp tbl fn (.insertRow v) s).tables
      = some ⟨t.cols, t.rows ++ [v]⟩ := by
  simp only [applyOp]
  simp [h, lookupTable_setTable_self]

theorem applyOps_inserts_lookup (tbl : String) (fn : List String) :
    ∀ (L : List (List (Option String))) (s : PgState) (t : PgTable),
      lookupTable (schemaName, tbl) s.tables = some t →
      lookupTable (schemaName, tbl)
          (applyOps tbl fn (L.map SqlOp.insertRow) s).tables
        = some ⟨t.cols, t.rows ++ L⟩ := by
  intro L
  induction L with
  | nil => intro s t h; simpa [applyOps] using h
  | cons v L ih =>
    intro s t h
    rw [List.map_cons, applyOps_cons]
    have step := applyOp_insertRow_lookup tbl fn s t v h
    have := ih (applyOp tbl fn (.insertRow v) s) ⟨t.cols, t.rows ++ [v]⟩ step
    simpa using this

/-- After one Replace-mode statement sequence, the destination table
holds exactly the insert payloads, whatever the starting state was. -/
theorem replace_run_table (tbl : String) (fn : List String)
    (L : List (List (Option String))) (db : PgState) :
    ∃ c, lookupTable (schemaName, tbl)
        (applyOps tbl fn (sqlOps L false) db).tables = some ⟨c, L⟩ := by
  have hops : sqlOps L false
      = SqlOp.createSchema :: SqlOp.createTable :: SqlOp.deleteRows
          :: L.map SqlOp.insertRow := by
    simp [sqlOps]
  rw [hops, applyOps_cons, applyOps_cons, applyOps_cons]
  set s1 := applyOp tbl fn .createSchema db with hs1
  obtain ⟨t, ht⟩ := applyOp_createTable_lookup tbl fn s1
  have hdel := applyOp_deleteRows_lookup tbl fn _ t ht
  have := applyOps_inserts_lookup tbl fn L _ ⟨t.cols, []⟩ hdel
  exact ⟨t.cols, by simpa using this⟩

/-- A fault-free Replace-mode load commits all rows and publishes the
state produced by its statement sequence. -/
theorem load_replace_eq (fn : List String) (rr : List Row) (tbl : String)
    (db : PgState) (hne : rr ≠ []) :
    load_csv_to_pg fn rr tbl false false none db
      = .ok (rr.length, applyOps tbl fn (sqlOps (pgRowsOf fn rr) false) db) := by
  unfold load_csv_to_pg
  have h : (pgRowsOf fn rr).isEmpty = false := by
    rw [pgRowsOf_isEmpty]
    cases rr with
    | nil => exact absurd rfl hne
    | cons r rest => rfl
  simp only [h, Bool.false_eq_true, if_false]
  rw [runOps_none_eq]
  simp [pgRowsOf_length]

/-- C5: for every non-empty dataset, running `load_csv_to_pg` twice in
Replace mode leaves the destination table with exactly the dataset's
rows — |dataset| of them, not 2 × |dataset|. -/
theorem load_replace_idempotent (fn : List String) (rr : List Row)
    (tbl : String) (db : PgState) (hne : rr ≠ []) :
    ∃ db1 db2 c,
      load_csv_to_pg fn rr tbl false false none db = .ok (rr.length, db1) ∧
      load_csv_to_pg fn rr tbl false false none db1 = .ok (rr.length, db2) ∧
      lookupTable (schemaName, tbl) db2.tables = some ⟨c, pgRowsOf fn rr⟩ ∧
      (pgRowsOf fn rr).length = rr.length := by
  refine ⟨applyOps tbl fn (sqlOps (pgRowsOf fn rr) false) db,
    applyOps tbl fn (sqlOps (pgRowsOf fn rr) false)
      (applyOps tbl fn (sqlOps (pgRowsOf fn rr) false) db), ?_⟩
  obtain ⟨c, hc⟩ := replace_run_table tbl fn (pgRowsOf fn rr)
    (applyOps tbl fn (sqlOps (pgRowsOf fn rr) false) db)
  exact ⟨c, load_replace_eq fn rr tbl db hne,
    load_replace_eq fn rr tbl _ hne, hc, pgRowsOf_length fn rr⟩

/-- Witness for C5: a concrete one-row dataset loaded twice in Replace
mode into a database whose table already holds two foreign rows. -/
theorem load_replace_idempotent_witness :
    ∃ db1 db2 c,
      load_csv_to_pg ["a"] [[("a", "x")]] "healthcare_records" false false none
          ⟨["week8_demo"],
           [(("week8_demo", "healthcare_records"), ⟨["a"], [[some "u"], [some "v"]]⟩)]⟩
        = .ok (1, db1) ∧
      load_csv_to_pg ["a"] [[("a", "x")]] "healthcare_records" false false none db1
        = .ok (1, db2) ∧
      lookupTable ("week8_demo", "healthcare_records") db2.tables
        = some ⟨c, pgRowsOf ["a"] [[("a", "x")]]⟩ ∧
      (pgRowsOf ["a"] [[("a", "x")]]).length = 1 :=
  load_replace_idempotent ["a"] [[("a", "x")]] "healthcare_records"
    ⟨["week8_demo"],
     [(("week8_demo", "healthcare_records"), ⟨["a"], [[some "u"], [some "v"]]⟩)]⟩
    (by decide)

/-! ### Helper lemmas about the joiner -/

theorem getD_mem_of_lt {α : Type} :
    ∀ (l : List α) (d : α) (i : Nat), i < l.length → l.getD i d ∈ l := by
  intro l
  induction l with
  | nil => intro d i h; simp at h
  | cons x xs ih =>
    intro d i h
    cases i with
    | zero => simp
    | succ j =>
      simp only [List.getD_cons_succ, List.mem_cons]
      exact Or.inr (ih d j (Nat.lt_of_succ_lt_succ h))

theorem getD_eq_get {α : Type} :
    ∀ (l : List α) (d : α) (i : Nat) (h : i < l.length), l.getD i d = l.get ⟨i, h⟩ := by
  intro l
  induction l with
  | nil => intro d i h; simp at h
  | cons x xs ih =>
    intro d i h
    cases i with
    | zero => rfl
    | succ j => exact ih d j (Nat.lt_of_succ_lt_succ h)

/-- When both rows carry their projected keys, `mergeRow` succeeds with a
row whose column list is exactly `mergedCols`, whose direct projections
equal the source fields, and whose `patient_name` is the derived
concatenation of the patient name parts. -/
theorem mergeRow_ok (p a : Row) (hp : patientKeysOk p) (ha : appointmentKeysOk a) :
    ∃ r, mergeRow p a = .ok r ∧
      r.map Prod.fst = mergedCols ∧
      lookupStr "patient_email" r = lookupStr "email" p ∧
      lookupStr "blood_type" r = lookupStr "blood_type" p ∧
      lookupStr "doctor_name" r = lookupStr "doctor_name" a ∧
      lookupStr "department" r = lookupStr "department" a ∧
      lookupStr "appointment_date" r = lookupStr "appointment_date" a ∧
      lookupStr "status" r = lookupStr "status" a ∧
      lookupStr "consultation_fee" r = lookupStr "consultation_fee" a ∧
      (∀ fn0 ln0, lookupStr "first_name" p = some fn0 →
        lookupStr "last_name" p = some ln0 →
        lookupStr "patient_name" r = some (fn0 ++ " " ++ ln0)) := by
  obtain ⟨h1, h2, h3, h4⟩ := hp
  obtain ⟨h5, h6, h7, h8, h9⟩ := ha
  obtain ⟨fn, hfn⟩ := Option.isSome_iff_exists.mp h1
  obtain ⟨ln, hln⟩ := Option.isSome_iff_exists.mp h2
  obtain ⟨em, hem⟩ := Option.isSome_iff_exists.mp h3
  obtain ⟨bt, hbt⟩ := Option.isSome_iff_exists.mp h4
  obtain ⟨dn, hdn⟩ := Option.isSome_iff_exists.mp h5
  obtain ⟨dep, hdep⟩ := Option.isSome_iff_exists.mp h6
  obtain ⟨ad, had⟩ := Option.isSome_iff_exists.mp h7
  obtain ⟨st, hst⟩ := Option.isSome_iff_exists.mp h8
  obtain ⟨cf, hcf⟩ := Option.isSome_iff_exists.mp h9
  refine ⟨[("patient_name", fn ++ " " ++ ln), ("patient_email", em),
    ("blood_type", bt), ("doctor_name", dn), ("department", dep),
    ("appointment_date", ad), ("status", st), ("consultation_fee", cf)],
    ?_, rfl, by simp [lookupStr, hem], by simp [lookupStr, hbt],
    by simp [lookupStr, hdn], by simp [lookupStr, hdep], by simp [lookupStr, had],
    by simp [lookupStr, hst], by simp [lookupStr, hcf], ?_⟩
  · simp [mergeRow, hfn, hln, hem, hbt, hdn, hdep, had, hst, hcf]
  · intro fn0 ln0 hfn0 hln0
    have e1 : fn = fn0 := Option.some.inj (hfn.symm.trans hfn0)
    have e2 : ln = ln0 := Option.some.inj (hln.symm.trans hln0)
    rw [← e1, ← e2]
    rfl

/-- The merge loop succeeds on key-complete inputs, produces
`min` many rows, and the row at index `i` comes from the two source rows
at index `i`. -/
theorem mergeRows_spec :
    ∀ (ps as : List Row),
      (∀ r ∈ ps, patientKeysOk r) → (∀ r ∈ as, appointmentKeysOk r) →
      ∃ m, mergeRows ps as = .ok m ∧ m.length = min ps.length as.length ∧
        ∀ i, i < m.length →
          mergeRow (ps.getD i []) (as.getD i []) = .ok (m.getD i []) := by
  intro ps
  induction ps with
  | nil =>
    intro as _ _
    refine ⟨[], ?_, by simp, by simp⟩
    cases as <;> rfl
  | cons p ps ih =>
    intro as hp ha
    cases as with
    | nil => exact ⟨[], rfl, by simp, by simp⟩
    | cons a as =>
      obtain ⟨r, hr, -⟩ := mergeRow_ok p a (hp p (by simp)) (ha a (by simp))
      obtain ⟨m, hm, hlen, hpt⟩ :=
        ih as (fun x hx => hp x (by simp [hx])) (fun x hx => ha x (by simp [hx]))
      refine ⟨r :: m, ?_, ?_, ?_⟩
      · simp [mergeRows, hr, hm]
      · simp [hlen, Nat.succ_min_succ]
      · intro i hi
        cases i with
        | zero => simpa using hr
        | succ j => simpa using hpt j (Nat.lt_of_succ_lt_succ hi)

/-- Rows beyond index `min(|ps|,|as|) - 1` never influence the merge:
truncating both inputs at that bound gives the same computation. -/
theorem mergeRows_take :
    ∀ (ps as : List Row),
      mergeRows (ps.take (min ps.length as.length)) (as.take (min ps.length as.length))
        = mergeRows ps as := by
  intro ps
  induction ps with
  | nil => intro as; cases as <;> rfl
  | cons p ps ih =>
    intro as
    cases as with
    | nil => rfl
    | cons a as =>
      simp only [List.length_cons, Nat.succ_min_succ, List.take_succ_cons]
      simp only [mergeRows]
      rw [ih as]

/-! ### C2: positional merge semantics -/

/-- C2: for non-empty, key-complete inputs, `merge_csvs` produces exactly
`min(|patients|, |appointments|)` merged rows; the row at index `i` is
projected from the patient and appointment rows at the same index `i`;
and rows of the longer input beyond that bound do not contribute
(truncating both inputs at the bound yields the identical computation). -/
theorem merge_pairs_by_index (ps as : List Row)
    (hp : ∀ r ∈ ps, patientKeysOk r) (ha : ∀ r ∈ as, appointmentKeysOk r)
    (hps : ps ≠ []) (has : as ≠ []) :
    ∃ merged,
      (merge_csvs ps as).1 = .ok merged ∧
      merged.length = min ps.length as.length ∧
      (∀ i, i < merged.length →
        lookupStr "patient_email" (merged.getD i []) = lookupStr "email" (ps.getD i []) ∧
        lookupStr "blood_type" (merged.getD i []) = lookupStr "blood_type" (ps.getD i []) ∧
        lookupStr "doctor_name" (merged.getD i []) = lookupStr "doctor_name" (as.getD i []) ∧
        lookupStr "department" (merged.getD i []) = lookupStr "department" (as.getD i []) ∧
        lookupStr "appointment_date" (merged.getD i [])
          = lookupStr "appointment_date" (as.getD i []) ∧
        lookupStr "status" (merged.getD i []) = lookupStr "status" (as.getD i []) ∧
        lookupStr "consultation_fee" (merged.getD i [])
          = lookupStr "consultation_fee" (as.getD i [])) ∧
      merge_csvs ps as
        = merge_csvs (ps.take (min ps.length as.length))
            (as.take (min ps.length as.length)) := by
  obtain ⟨m, hm, hlen, hpt⟩ := mergeRows_spec ps as hp ha
  have hmne : m ≠ [] := by
    have h1 : 0 < ps.length := List.length_pos.mpr hps
    have h2 : 0 < as.length := List.length_pos.mpr has
    have h3 : 0 < m.length := by rw [hlen]; exact lt_min h1 h2
    exact List.ne_nil_of_length_pos h3
  obtain ⟨r0, m', rfl⟩ := List.exists_cons_of_ne_nil hmne
  refine ⟨r0 :: m', by simp [merge_csvs, hm], hlen, ?_, ?_⟩
  · intro i hi
    have hib : i < ps.length := lt_of_lt_of_le (hlen ▸ hi) (min_le_left _ _)
    have hia : i < as.length := lt_of_lt_of_le (hlen ▸ hi) (min_le_right _ _)
    have hpk : patientKeysOk (ps.getD i []) := hp _ (getD_mem_of_lt ps [] i hib)
    have hak : appointmentKeysOk (as.getD i []) := ha _ (getD_mem_of_lt as [] i hia)
    obtain ⟨r, hr, -, e1, e2, e3, e4, e5, e6, e7, -⟩ := mergeRow_ok _ _ hpk hak
    have hre : r = (r0 :: m').getD i [] := Except.ok.inj ((hr.symm).trans (hpt i hi))
    rw [← hre]
    exact ⟨e1, e2, e3, e4, e5, e6, e7⟩
  · have ht := mergeRows_take ps as
    simp only [merge_csvs]
    rw [ht]

/-- Row data used by the concrete witnesses: a key-complete patient. -/
def patientRowExample : Row :=
  [("patient_id", "p-1"), ("first_name", "Ada"), ("last_name", "Lovelace"),
   ("date_of_birth", "1815-12-10"), ("gender", "Female"), ("blood_type", "O+"),
   ("email", "ada"), ("phone", "555"), ("address", "London")]

/-- A second key-complete patient row for the witnesses. -/
def patientRowExample2 : Row :=
  [("patient_id", "p-2"), ("first_name", "Grace"), ("last_name", "Hopper"),
   ("date_of_birth", "1906-12-09"), ("gender", "Female"), ("blood_type", "A+"),
   ("email", "grace"), ("phone", "556"), ("address", "NYC")]

/-- A key-complete appointment row for the witnesses. -/
def appointmentRowExample : Row :=
  [("appointment_id", "a-1"), ("doctor_name", "Dr. Strange"),
   ("department", "Cardiology"), ("appointment_date", "2025-10-02"),
   ("appointment_time", "09:00"), ("duration_minutes", "30"),
   ("status", "scheduled"), ("consultation_fee", "99.5")]

/-- Two patients for the witnesses. -/
def psExample : List Row := [patientRowExample, patientRowExample2]

/-- One appointment for the witnesses (exercises truncation). -/
def asExample : List Row := [appointmentRowExample]

/-- Witness for C2 on two patients and one appointment. -/
theorem merge_pairs_by_index_witness :
    ∃ merged,
      (merge_csvs psExample asExample).1 = .ok merged ∧
      merged.length = min psExample.length asExample.length ∧
      (∀ i, i < merged.length →
        lookupStr "patient_email" (merged.getD i [])
          = lookupStr "email" (psExample.getD i []) ∧
        lookupStr "blood_type" (merged.getD i [])
          = lookupStr "blood_type" (psExample.getD i []) ∧
        lookupStr "doctor_name" (merged.getD i [])
          = lookupStr "doctor_name" (asExample.getD i []) ∧
        lookupStr "department" (merged.getD i [])
          = lookupStr "department" (asExample.getD i []) ∧
        lookupStr "appointment_date" (merged.getD i [])
          = lookupStr "appointment_date" (asExample.getD i []) ∧
        lookupStr "status" (merged.getD i [])
          = lookupStr "status" (asExample.getD i []) ∧
        lookupStr "consultation_fee" (merged.getD i [])
          = lookupStr "consultation_fee" (asExample.getD i [])) ∧
      merge_csvs psExample asExample
        = merge_csvs (psExample.take (min psExample.length asExample.length))
            (asExample.take (min psExample.length asExample.length)) :=
  merge_pairs_by_index psExample asExample (by decide) (by decide)
    (by decide) (by decide)

/-! ### C3: empty inputs do not raise a named error -/

/-- Counterexample for C3: with an empty patients list, `merge_csvs` does
not fail with a named empty-input error — it raises a bare `IndexError`
from `merged[0]`, and because the output file was already opened with
mode "w", an empty headerless artifact is left on disk.  This refutes
both the named-error part and the no-artifact part of the claim. -/
theorem merge_empty_input_cex :
    merge_csvs [] [appointmentRowExample] = (.error .indexError, .emptyFile) := rfl

/-- C3 as amended: when either input has zero rows the merge loop makes
no row, and `merge_csvs` fails with an unnamed `IndexError` raised while
building the output writer from `merged[0]`, leaving behind an empty,
headerless output file (no `EmptyInputError` exists in the code). -/
theorem merge_empty_input_index_error (ps as : List Row)
    (h : ps = [] ∨ as = []) :
    merge_csvs ps as = (.error .indexError, .emptyFile) := by
  have hz : mergeRows ps as = .ok [] := by
    rcases h with h | h
    · subst h; cases as <;> rfl
    · subst h; cases ps <;> rfl
  simp [merge_csvs, hz]

/-- Witness for C3 as amended, at two empty inputs. -/
theorem merge_empty_input_index_error_witness :
    merge_csvs [] [] = (.error .indexError, .emptyFile) :=
  merge_empty_input_index_error [] [] (Or.inl rfl)

/-! ### C10: merged column set and the derived patient_name -/

/-- C10: for non-empty key-complete inputs, every merged row has exactly
the fixed column list `mergedCols` in that order, and its `patient_name`
equals the patient row's `first_name`, one space, then `last_name` — a
derived concatenation rather than a projection of a single field. -/
theorem merge_row_columns_and_name (ps as : List Row)
    (hp : ∀ r ∈ ps, patientKeysOk r) (ha : ∀ r ∈ as, appointmentKeysOk r)
    (hps : ps ≠ []) (has : as ≠ []) :
    ∃ merged,
      (merge_csvs ps as).1 = .ok merged ∧
      (∀ r ∈ merged, r.map Prod.fst = mergedCols) ∧
      ∀ i, i < merged.length → ∀ fn0 ln0,
        lookupStr "first_name" (ps.getD i []) = some fn0 →
        lookupStr "last_name" (ps.getD i []) = some ln0 →
        lookupStr "patient_name" (merged.getD i []) = some (fn0 ++ " " ++ ln0) := by
  obtain ⟨m, hm, hlen, hpt⟩ := mergeRows_spec ps as hp ha
  have hmne : m ≠ [] := by
    have h1 : 0 < ps.length := List.length_pos.mpr hps
    have h2 : 0 < as.length := List.length_pos.mpr has
    have h3 : 0 < m.length := by rw [hlen]; exact lt_min h1 h2
    exact List.ne_nil_of_length_pos h3
  obtain ⟨r0, m', rfl⟩ := List.exists_cons_of_ne_nil hmne
  have keyAt : ∀ i, i < (r0 :: m').length →
      patientKeysOk (ps.getD i []) ∧ appointmentKeysOk (as.getD i []) := by
    intro i hi
    have hib : i < ps.length := lt_of_lt_of_le (hlen ▸ hi) (min_le_left _ _)
    have hia : i < as.length := lt_of_lt_of_le (hlen ▸ hi) (min_le_right _ _)
    exact ⟨hp _ (getD_mem_of_lt ps [] i hib), ha _ (getD_mem_of_lt as [] i hia)⟩
  refine ⟨r0 :: m', by simp [merge_csvs, hm], ?_, ?_⟩
  · intro r hrm
    obtain ⟨⟨n, hn⟩, hget⟩ := List.mem_iff_get.mp hrm
    have hgd : (r0 :: m').getD n [] = r := by
      rw [getD_eq_get _ _ n hn, hget]
    obtain ⟨hpk, hak⟩ := keyAt n hn
    obtain ⟨r2, hr2, hcols, -, -, -, -, -, -, -, -⟩ := mergeRow_ok _ _ hpk hak
    have hre : r2 = r := (Except.ok.inj ((hr2.symm).trans (hpt n hn))).trans hgd
    exact hre ▸ hcols
  · intro i hi fn0 ln0 hfn0 hln0
    obtain ⟨hpk, hak⟩ := keyAt i hi
    obtain ⟨r2, hr2, -, -, -, -, -, -, -, -, hname⟩ := mergeRow_ok _ _ hpk hak
    have hre : r2 = (r0 :: m').getD i [] := Except.ok.inj ((hr2.symm).trans (hpt i hi))
    rw [← hre]
    exact hname fn0 ln0 hfn0 hln0

/-- Witness for C10 on two patients and one appointment. -/
theorem merge_row_columns_and_name_witness :
    ∃ merged,
      (merge_csvs psExample asExample).1 = .ok merged ∧
      (∀ r ∈ merged, r.map Prod.fst = mergedCols) ∧
      ∀ i, i < merged.length → ∀ fn0 ln0,
        lookupStr "first_name" (psExample.getD i []) = some fn0 →
        lookupStr "last_name" (psExample.getD i []) = some ln0 →
        lookupStr "patient_name" (merged.getD i []) = some (fn0 ++ " " ++ ln0) :=
  merge_row_columns_and_name psExample asExample (by decide) (by decide)
    (by decide) (by decide)

/-! ### C6: generator row counts and categorical enumerations -/

theorem random_element_mem (l : List String) (h : l ≠ []) (s : Nat) :
    random_element l s ∈ l := by
  have hlen : 0 < l.length := List.length_pos.mpr h
  have hm : s % l.length < l.length := Nat.mod_lt _ hlen
  unfold random_element
  exact getD_mem_of_lt l "" _ hm

theorem patientRow_cols (o : FakerOracle) (i : Nat) :
    (patientRow o i).map Prod.fst = patientCols := rfl

theorem appointmentRow_cols (o : FakerOracle) (i : Nat) :
    (appointmentRow o i).map Prod.fst = appointmentCols := rfl

/-- C6: for every randomness oracle and every `count ≥ 1`, both
generators succeed, write a CSV whose header is the declared column list,
produce exactly `count` rows each carrying exactly that column list, and
every categorical field of every row takes a value from its declared
enumeration. -/
theorem generate_count_and_enums (o : FakerOracle) (count : Nat) (h : 1 ≤ count) :
    (∃ data, fetch_patients o count = (.ok data, .csv patientCols data) ∧
      data.length = count ∧
      ∀ r ∈ data, r.map Prod.fst = patientCols ∧
        (∃ g ∈ gendersList, lookupStr "gender" r = some g) ∧
        (∃ b ∈ bloodTypesList, lookupStr "blood_type" r = some b)) ∧
    (∃ data, fetch_appointments o count = (.ok data, .csv appointmentCols data) ∧
      data.length = count ∧
      ∀ r ∈ data, r.map Prod.fst = appointmentCols ∧
        (∃ d ∈ departmentsList, lookupStr "department" r = some d) ∧
        (∃ st ∈ statusesList, lookupStr "status" r = some st) ∧
        (∃ du ∈ durationsList, lookupStr "duration_minutes" r = some du)) := by
  constructor
  · have hlen : ((List.range count).map (patientRow o)).length = count := by simp
    have hne : (List.range count).map (patientRow o) ≠ [] := by
      intro hc
      rw [hc] at hlen
      simp at hlen
      omega
    have hmem : ∀ r ∈ (List.range count).map (patientRow o), ∃ i, r = patientRow o i := by
      intro r hr
      obtain ⟨i, -, hi⟩ := List.mem_map.mp hr
      exact ⟨i, hi.symm⟩
    obtain ⟨r0, rest, hd⟩ := List.exists_cons_of_ne_nil hne
    have hr0 : ∃ i, r0 = patientRow o i := hmem r0 (by rw [hd]; simp)
    obtain ⟨i0, hi0⟩ := hr0
    refine ⟨r0 :: rest, ?_, by rw [← hd]; exact hlen, ?_⟩
    · simp only [fetch_patients]
      rw [hd, hi0]
      rfl
    · intro r hr
      rw [← hd] at hr
      obtain ⟨i, rfl⟩ := hmem r hr
      exact ⟨rfl,
        ⟨random_element gendersList (o.genderSeed i),
          random_element_mem _ (by decide) _, rfl⟩,
        ⟨random_element bloodTypesList (o.bloodSeed i),
          random_element_mem _ (by decide) _, rfl⟩⟩
  · have hlen : ((List.range count).map (appointmentRow o)).length = count := by simp
    have hne : (List.range count).map (appointmentRow o) ≠ [] := by
      intro hc
      rw [hc] at hlen
      simp at hlen
      omega
    have hmem : ∀ r ∈ (List.range count).map (appointmentRow o),
        ∃ i, r = appointmentRow o i := by
      intro r hr
      obtain ⟨i, -, hi⟩ := List.mem_map.mp hr
      exact ⟨i, hi.symm⟩
    obtain ⟨r0, rest, hd⟩ := List.exists_cons_of_ne_nil hne
    obtain ⟨i0, hi0⟩ := hmem r0 (by rw [hd]; simp)
    refine ⟨r0 :: rest, ?_, by rw [← hd]; exact hlen, ?_⟩
    · simp only [fetch_appointments]
      rw [hd, hi0]
      rfl
    · intro r hr
      rw [← hd] at hr
      obtain ⟨i, rfl⟩ := hmem r hr
      exact ⟨rfl,
        ⟨random_element departmentsList (o.departmentSeed i),
          random_element_mem _ (by decide) _, rfl⟩,
        ⟨random_element statusesList (o.statusSeed i),
          random_element_mem _ (by decide) _, rfl⟩,
        ⟨random_element durationsList (o.durationSeed i),
          random_element_mem _ (by decide) _, rfl⟩⟩

/-- A concrete randomness oracle for the witnesses. -/
def oracleExample : FakerOracle :=
  ⟨fun _ => "id", fun _ => "Ada", fun _ => "Lovelace", fun _ => "1900-01-01",
   fun _ => 0, fun _ => 1, fun _ => "a@x", fun _ => "555", fun _ => "London",
   fun _ => "House", fun _ => 2, fun _ => "2025-01-01", fun _ => "10:00",
   fun _ => 3, fun _ => 1, fun _ => "50.0"⟩

/-- Witness for C6 at a concrete oracle and `count = 1`. -/
theorem generate_count_and_enums_witness :
    (∃ data, fetch_patients oracleExample 1 = (.ok data, .csv patientCols data) ∧
      data.length = 1 ∧
      ∀ r ∈ data, r.map Prod.fst = patientCols ∧
        (∃ g ∈ gendersList, lookupStr "gender" r = some g) ∧
        (∃ b ∈ bloodTypesList, lookupStr "blood_type" r = some b)) ∧
    (∃ data, fetch_appointments oracleExample 1 = (.ok data, .csv appointmentCols data) ∧
      data.length = 1 ∧
      ∀ r ∈ data, r.map Prod.fst = appointmentCols ∧
        (∃ d ∈ departmentsList, lookupStr "department" r = some d) ∧
        (∃ st ∈ statusesList, lookupStr "status" r = some st) ∧
        (∃ du ∈ durationsList, lookupStr "duration_minutes" r = some du)) :=
  generate_count_and_enums oracleExample 1 (by decide)

/-! ### C7: count = 0 makes the generators fail -/

/-- Counterexample for C7: at `count = 0` the generators do not return an
empty dataset with the declared header; `data[0]` raises `IndexError`
after the output file was opened, so the task fails and the serialized
output is an empty file with no header row. -/
theorem generate_zero_count_cex :
    fetch_patients oracleExample 0 = (.error .indexError, .emptyFile) ∧
    fetch_appointments oracleExample 0 = (.error .indexError, .emptyFile) :=
  ⟨rfl, rfl⟩

/-- C7 as amended: for every randomness oracle, `count = 0` makes both
generators raise `IndexError` from `data[0].keys()` and leave behind an
empty file carrying no header row. -/
theorem generate_zero_count_index_error (o : FakerOracle) :
    fetch_patients o 0 = (.error .indexError, .emptyFile) ∧
    fetch_appointments o 0 = (.error .indexError, .emptyFile) :=
  ⟨rfl, rfl⟩

/-! ### C9: cleanup deletes exactly the .csv files -/

/-- C9: `cleanup_folder` keeps the directory entries in order and removes
exactly those entries that are plain files whose name ends in ".csv";
every other entry (non-csv files, and directories even when named
"*.csv") survives unchanged. -/
theorem cleanup_deletes_exactly_csv (entries : List DirEntry) :
    (cleanup_folder entries).Sublist entries ∧
    ∀ e, e ∈ cleanup_folder entries ↔
      (e ∈ entries ∧ ¬(e.isFile = true ∧ e.name.endsWith ".csv" = true)) := by
  constructor
  · exact List.filter_sublist _
  · intro e
    constructor
    · intro hmem2
      have h1 := List.mem_filter.mp hmem2
      refine ⟨h1.1, ?_⟩
      rintro ⟨hf, hcsv⟩
      have h2 := h1.2
      simp [hf, hcsv] at h2
    · rintro ⟨hmem2, hnot⟩
      refine List.mem_filter.mpr ⟨hmem2, ?_⟩
      cases hf : e.isFile with
      | false => simp [hf]
      | true =>
        cases hc : e.name.endsWith ".csv" with
        | false => simp [hf, hc]
        | true => exact absurd ⟨hf, hc⟩ hnot
